import Mathlib

/-!
Verification development for the MusicDownloader repository
(src/MusicDownloader.py).  The Python source is shallowly embedded:
each Lean definition below mirrors one Python function or code block,
with comments pointing at the source lines it embeds.  Strings are
modelled as Lean `String` (lists of characters); Python dictionaries of
optional metadata fields are modelled as a structure of `Option String`
fields where `some v` means the key is present with value `v` and
`none` means the key is absent.  Network endpoints are modelled by
explicit response values passed as parameters (transport error,
HTTP status plus optionally parsed payload), so that the Python
`try/except` control flow becomes a total Lean function.  Real-number
similarity scores (Python floats) are modelled exactly as rationals.
-/

/-! ## Basic string utilities -/

/-- ASCII whitespace characters, the ones relevant to the regex class
`\s` and to Python `str.strip` for the ASCII strings this development
reasons about (Unicode whitespace beyond these is outside the modelled
alphabet). -/
def pyWs (c : Char) : Bool :=
  c = ' ' || c = '\t' || c = '\n' || c = '\r' || c = '\x0b' || c = '\x0c'

/-- Length of the maximal leading whitespace run (what a greedy `\s*`
consumes at the current position). -/
def wsRunLen : List Char → Nat
  | [] => 0
  | c :: t => if pyWs c then wsRunLen t + 1 else 0

/-- Python `str.strip()` on a character list. -/
def pyStrip (l : List Char) : List Char :=
  ((l.dropWhile pyWs).reverse.dropWhile pyWs).reverse

/-- Python `str.lower()` (ASCII case folding). -/
def pyLower (l : List Char) : List Char :=
  l.map Char.toLower

/-- Python `str.lower()` on a `String`. -/
def pyLowerS (s : String) : String :=
  String.mk (pyLower s.data)

/-- Python substring test `needle in hay`. -/
def containsSub (needle : List Char) : List Char → Bool
  | [] => needle.isEmpty
  | x :: t => needle.isPrefixOf (x :: t) || containsSub needle t

/-- Index of the first occurrence of `needle` in the haystack, if any. -/
def findSubIdx (needle : List Char) : List Char → Option Nat
  | [] => if needle.isEmpty then some 0 else none
  | x :: t =>
    if needle.isPrefixOf (x :: t) then some 0
    else (findSubIdx needle t).map (· + 1)

/-- Python `hay.split(sep, 1)` when `sep` occurs: the parts before and
after the first occurrence of `sep`.  `none` when `sep` does not occur
(Python would return the one-element list `[hay]`). -/
def splitAtSub (sep : List Char) (l : List Char) : Option (List Char × List Char) :=
  (findSubIdx sep l).map fun i => (l.take i, l.drop (i + sep.length))

/-- Python `str.replace(pat, "")`, written with explicit fuel (one unit
per character consumed) so the recursion is structural: remove every
occurrence of `pat`, scanning left to right without rescanning the
junction. -/
def removeAllSubFuel (pat : List Char) : Nat → List Char → List Char
  | 0, l => l
  | _ + 1, [] => []
  | n + 1, x :: xs =>
    if !pat.isEmpty && pat.isPrefixOf (x :: xs) then
      removeAllSubFuel pat n ((x :: xs).drop pat.length)
    else
      x :: removeAllSubFuel pat n xs

/-- Python `str.replace(pat, "")` on character lists. -/
def removeAllSub (pat : List Char) (l : List Char) : List Char :=
  removeAllSubFuel pat l.length l

/-- The characters removed by `sanitize_filename`
(src/MusicDownloader.py line 62: the regex class `[\\/*?:"<>|]`). -/
def invalidChars : List Char :=
  ['\\', '/', '*', '?', ':', '"', '<', '>', '|']

/-- src/MusicDownloader.py lines 60-62: `sanitize_filename` removes every
occurrence of the characters in `invalidChars`. -/
def sanitize_filename (s : String) : String :=
  String.mk (s.data.filter (fun c => !(invalidChars.contains c)))

/-! ## Title parser (src/MusicDownloader.py lines 64-89)

The three separator patterns are `^(.*?)\s*-\s*(.*?)$` and the same with
the en dash and the colon.  `re.match` with the lazy groups splits at the
first occurrence of the separator character that admits a match: the
first group cannot cross a newline (`.`), the `\s*` parts absorb
whitespace around the separator, and `$` also accepts a single trailing
newline.  `postMatch`, `tryHere` and `reSplitSep` implement exactly that
backtracking outcome. -/

/-- Match `\s*(.*?)$` against the text after the separator character:
greedy whitespace, then a lazy newline-free group, where `$` accepts the
end of the string or a position just before a single final newline. -/
def postMatch (r : List Char) : Option (List Char) :=
  let t := r.drop (wsRunLen r)
  if t.contains '\n' = false then some t
  else if t.getLast? = some '\n' && t.dropLast.contains '\n' = false then
    some t.dropLast
  else none

/-- Try to match `\s*c\s*(.*?)$` starting at the current position: the
greedy `\s*` stops exactly at the first non-whitespace character, which
must be the separator `c`. -/
def tryHere (c : Char) (l : List Char) : Option (List Char) :=
  match l.drop (wsRunLen l) with
  | y :: rest => if y = c then postMatch rest else none
  | [] => none

/-- Match `^(.*?)\s*c\s*(.*?)$`: the lazy first group grows from the
left, never across a newline; on success return (first group, second
group) before stripping. -/
def reSplitSep (c : Char) : List Char → Option (List Char × List Char)
  | [] => none
  | x :: xs =>
    match tryHere c (x :: xs) with
    | some g2 => some ([], g2)
    | none =>
      if x = '\n' then none
      else (reSplitSep c xs).map (fun p => (x :: p.1, p.2))

/-- The four featuring separators tried in order
(src/MusicDownloader.py line 82). -/
def featSeps : List (List Char) :=
  [" feat. ".data, " feat ".data, " ft. ".data, " ft ".data]

/-- src/MusicDownloader.py lines 82-86: for each separator in order, if
its lowercase form occurs in the lowercased title, split the original
title case-sensitively at its first occurrence; a case-mismatched
occurrence falls through to the next separator. -/
def featSplitGo : List (List Char) → List Char → Option (List Char × List Char)
  | [], _ => none
  | sep :: rest, t =>
    if containsSub sep (pyLower t) then
      match splitAtSub sep t with
      | some p => some p
      | none => featSplitGo rest t
    else featSplitGo rest t

/-- src/MusicDownloader.py lines 64-89: `extract_title_artist`. -/
def extract_title_artist (title : String) : String × String :=
  match reSplitSep '-' title.data with
  | some (a, b) => (String.mk (pyStrip a), String.mk (pyStrip b))
  | none =>
    match reSplitSep '–' title.data with
    | some (a, b) => (String.mk (pyStrip a), String.mk (pyStrip b))
    | none =>
      match reSplitSep ':' title.data with
      | some (a, b) => (String.mk (pyStrip a), String.mk (pyStrip b))
      | none =>
        let low := pyLower title.data
        if containsSub " feat".data low || containsSub " ft.".data low
            || containsSub " ft ".data low then
          match featSplitGo featSeps title.data with
          | some (a, b) =>
            (String.mk (pyStrip a),
             String.mk (pyStrip a ++ " feat. ".data ++ pyStrip b))
          | none => ("Unknown Artist", title)
        else ("Unknown Artist", title)

/-! ## Metadata records and fusion -/

/-- The metadata dictionary threaded through the pipeline.  Each field is
`some v` when the corresponding key is present in the Python dict with
string value `v` (possibly empty), `none` when the key is absent. -/
structure Record where
  title : Option String := none
  artist : Option String := none
  album : Option String := none
  year : Option String := none
  genre : Option String := none
  track : Option String := none
  album_art_url : Option String := none
deriving DecidableEq

/-- The empty metadata dictionary `{}`. -/
def emptyRecord : Record := {}

/-- Per-field dictionary update: in `{**base, **top}` a key present in
`top` wins, otherwise the `base` entry survives. -/
def pickField (base top : Option String) : Option String :=
  match top with
  | some v => some v
  | none => base

/-- Python dict merge `{**base, **top}` on metadata records. -/
def mergeRecords (base top : Record) : Record where
  title := pickField base.title top.title
  artist := pickField base.artist top.artist
  album := pickField base.album top.album
  year := pickField base.year top.year
  genre := pickField base.genre top.genre
  track := pickField base.track top.track
  album_art_url := pickField base.album_art_url top.album_art_url

/-- Names of the seven metadata fields, to state per-field properties. -/
inductive FieldName
  | title | artist | album | year | genre | track | album_art_url
deriving DecidableEq

/-- Field projection by name. -/
def getF : FieldName → Record → Option String
  | .title, r => r.title
  | .artist, r => r.artist
  | .album, r => r.album
  | .year, r => r.year
  | .genre, r => r.genre
  | .track, r => r.track
  | .album_art_url, r => r.album_art_url

/-- Python truthiness of `basic_metadata.get('title')`: the key is
present and its value non-empty. -/
def titleTruthy (r : Record) : Bool :=
  match r.title with
  | some t => !(t == "")
  | none => false

/-- src/MusicDownloader.py lines 288-302: `enrich_metadata`.  `auto`
models `self.auto_metadata`; `mb` is the record the MusicBrainz lookup
returns for the query built from `basic` (already filtered of `None`
values by `search_musicbrainz`), passed here explicitly since the lookup
itself is a network call.  When the lookup runs, its values overwrite
`basic` key by key (lines 299-300). -/
def enrich_metadata (auto : Bool) (mb : Record) (basic : Record) : Record :=
  if auto && titleTruthy basic then mergeRecords basic mb else basic

/-- src/MusicDownloader.py lines 329-335: the metadata fusion performed
by `download_song`: `combined_metadata = {**youtube_metadata, **metadata}`
(user overrides win over the source record), then
`final_metadata = enrich_metadata(combined_metadata)` (the enrichment
record `mb` overwrites the combination field by field). -/
def download_song_fuse (auto : Bool) (source user mb : Record) : Record :=
  enrich_metadata auto mb (mergeRecords source user)

/-- src/MusicDownloader.py lines 337-347: the destination folder name
computed by `download_song` from the final metadata record.  Note the
album branch sanitizes the combined string `f"{artist}/{album}"`, so the
separator is part of the sanitized text. -/
def download_song_folder (final : Record) : String :=
  let artist := final.artist.getD "Unknown Artist"
  let album := final.album.getD "Single"
  if album = "Single" || album = "" then sanitize_filename artist
  else sanitize_filename (artist ++ "/" ++ album)

/-! ## Source metadata extractor (src/MusicDownloader.py lines 225-286) -/

/-- One entry of the `thumbnails` list: `url` plus
`x.get('width', 0) * x.get('height', 0)` inputs. -/
structure Thumb where
  url : String
  width : Nat := 0
  height : Nat := 0
deriving DecidableEq

/-- The genre field of the raw info dict: Python code distinguishes a
list value from a string value (lines 263-267). -/
inductive GenreField
  | ofList (gs : List String)
  | ofStr (g : String)
deriving DecidableEq

/-- The fields of the yt-dlp info dict read by
`get_metadata_from_youtube`.  `some`/`none` model key presence; values
are taken to be well-typed as the code assumes (a malformed dict would
raise inside the caller's `try`). -/
structure RawInfo where
  title : String := ""
  album : Option String := none
  uploader : Option String := none
  channel : Option String := none
  track : Option String := none
  playlist_index : Option Nat := none
  upload_date : Option String := none
  genre : Option GenreField := none
  categories : Option (List String) := none
  thumbnail : Option String := none
  thumbnails : Option (List Thumb) := none
deriving DecidableEq

/-- src/MusicDownloader.py line 248: channel text after
`.replace(" - Topic", "").replace("VEVO", "").strip()`. -/
def cleanChannel (ch : String) : String :=
  String.mk (pyStrip (removeAllSub "VEVO".data (removeAllSub " - Topic".data ch.data)))

/-- Lines 236-237: copy an explicit album field verbatim if present. -/
def stepAlbum (info : RawInfo) (m : Record) : Record :=
  match info.album with
  | some a => { m with album := some a }
  | none => m

/-- Lines 240-243: if the title parser gave "Unknown Artist" (`a` is the
parsed artist) and a truthy uploader is present, use the uploader. -/
def stepUploader (info : RawInfo) (a : String) (m : Record) : Record :=
  match info.uploader with
  | some u => if u ≠ "" && a == "Unknown Artist" then { m with artist := some u } else m
  | none => m

/-- Lines 245-250: if a truthy channel is present and (the parsed artist
is "Unknown Artist" or the channel contains "Topic"), replace the artist
with the cleaned channel text when that text is non-empty.  The test
reuses the parsed artist `a`, not the record's current artist. -/
def stepChannel (info : RawInfo) (a : String) (m : Record) : Record :=
  match info.channel with
  | some ch =>
    if ch ≠ "" && (a == "Unknown Artist" || containsSub "Topic".data ch.data) then
      if cleanChannel ch ≠ "" then { m with artist := some (cleanChannel ch) } else m
    else m
  | none => m

/-- Lines 253-256: a present `track` key wins, else `str(playlist_index)`. -/
def stepTrack (info : RawInfo) (m : Record) : Record :=
  match info.track with
  | some t => { m with track := some t }
  | none =>
    match info.playlist_index with
    | some i => { m with track := some (toString i) }
    | none => m

/-- Lines 259-260: first 4 characters of `upload_date` as the year. -/
def stepYear (info : RawInfo) (m : Record) : Record :=
  match info.upload_date with
  | some d => { m with year := some (d.take 4) }
  | none => m

/-- Lines 262-267: list-valued genre takes its first element, string
genre is used as is. -/
def stepGenre (info : RawInfo) (m : Record) : Record :=
  match info.genre with
  | some (.ofList (g :: _)) => { m with genre := some g }
  | some (.ofList []) => m
  | some (.ofStr g) => { m with genre := some g }
  | none => m

/-- Lines 270-275: when genre is still unset, the first category whose
lowercase form is neither "music" nor "entertainment". -/
def stepCategories (info : RawInfo) (m : Record) : Record :=
  match info.categories with
  | some cats =>
    if cats ≠ [] && m.genre.isNone then
      match cats.filter (fun c => !(pyLowerS c == "music") && !(pyLowerS c == "entertainment")) with
      | g :: _ => { m with genre := some g }
      | [] => m
    else m
  | none => m

/-- First element of a stable descending sort by `f`: the first element
attaining the maximal value. -/
def firstMaxBy (f : Thumb → Nat) (t : Thumb) (ts : List Thumb) : Thumb :=
  ts.foldl (fun acc x => if f x > f acc then x else acc) t

/-- Lines 278-284: a present `thumbnail` key wins; otherwise the
thumbnail with the largest `width * height` (ties keep the first, as the
Python sort is stable). -/
def stepThumb (info : RawInfo) (m : Record) : Record :=
  match info.thumbnail with
  | some u => { m with album_art_url := some u }
  | none =>
    match info.thumbnails with
    | some (t :: ts) =>
      { m with album_art_url := some ((firstMaxBy (fun x => x.width * x.height) t ts).url) }
    | some [] => m
    | none => m

/-- src/MusicDownloader.py lines 225-286: `get_metadata_from_youtube`. -/
def get_metadata_from_youtube (info : RawInfo) : Record :=
  let p := extract_title_artist info.title
  stepThumb info (stepCategories info (stepGenre info (stepYear info (stepTrack info
    (stepChannel info p.1 (stepUploader info p.1
      (stepAlbum info { emptyRecord with title := some p.2, artist := some p.1 })))))))

/-! ## External lookup client (src/MusicDownloader.py lines 91-209)

The HTTP layer is modelled by an explicit outcome value: a transport
error (any exception raised by `requests.get`), or a status code with an
optionally parsed body (`none` models `response.json()` raising on a
malformed payload).  The Python `try/except` around each endpoint turns
every failure outcome into `{}` respectively `None`, which the model
reproduces as a total function.  The `SequenceMatcher.ratio` string
similarity is abstracted as a parameter `sim`; Python float arithmetic
on scores is modelled exactly over the rationals. -/

/-- Outcome of one HTTP GET: transport failure, or a status code with a
body that either parsed to `α` or was malformed. -/
inductive HttpResult (α : Type)
  | transportErr : HttpResult α
  | ok (status : Nat) (body : Option α) : HttpResult α

/-- One entry of a recording's `artist-credit` list: `artistRef` models
`ac["artist"]["name"]` when the `"artist"` key is present, `name` the
top-level `"name"` key. -/
structure ArtistCredit where
  name : Option String := none
  artistRef : Option String := none
deriving DecidableEq

/-- One entry of a recording's `tags` list: `count` models
`x.get("count", 0)`. -/
structure Tag where
  tagName : String
  count : Nat := 0
deriving DecidableEq

/-- One entry of a recording's `releases` list. -/
structure Release where
  relTitle : Option String := none
  date : Option String := none
  trackNumber : Option String := none
  relId : Option String := none
deriving DecidableEq

/-- One candidate recording from the search response. -/
structure Candidate where
  title : Option String := none
  artistCredit : List ArtistCredit := []
  tags : List Tag := []
  releases : List Release := []
deriving DecidableEq

/-- Parsed body of the recording-search endpoint (`data["recordings"]`,
absent key modelled as the empty list). -/
structure SearchPayload where
  recordings : List Candidate
deriving DecidableEq

/-- One entry of the cover-art endpoint's `images` list. -/
structure CoverImage where
  front : Bool := false
  image : Option String := none
deriving DecidableEq

/-- Parsed body of the cover-art endpoint. -/
structure CoverPayload where
  images : List CoverImage
deriving DecidableEq

/-- src/MusicDownloader.py lines 114-125: the weighted score of one
candidate.  `rec_title`/`rec_artist` default to `""`; the artist score
is the fixed 0.5 when the query's artist is absent or empty (Python
`if artist:`), and `score = title_score * 0.6 + artist_score * 0.4`. -/
def scoreOf (sim : String → String → ℚ) (qt : String) (qa : Option String)
    (c : Candidate) : ℚ :=
  let recTitle := c.title.getD ""
  let recArtist :=
    match c.artistCredit with
    | [] => ""
    | ac :: _ => ac.name.getD ""
  let titleScore := sim (pyLowerS qt) (pyLowerS recTitle)
  let artistScore :=
    match qa with
    | some a => if a = "" then 1/2 else sim (pyLowerS a) (pyLowerS recArtist)
    | none => 1/2
  titleScore * (3/5) + artistScore * (2/5)

/-- src/MusicDownloader.py lines 127-129: one step of the best-match
loop, keeping the incumbent unless the new score is strictly higher. -/
def bestStep (f : Candidate → ℚ) (acc : Option Candidate × ℚ) (c : Candidate) :
    Option Candidate × ℚ :=
  if f c > acc.2 then (some c, f c) else acc

/-- src/MusicDownloader.py lines 132-180: populate the metadata record
from the accepted candidate and drop the `None` values.  `cover` models
`get_cover_art_url` applied to a release id (a network call). -/
def buildMeta (c : Candidate) (cover : String → Option String) : Record :=
  let artists := c.artistCredit.filterMap (fun ac =>
    match ac.artistRef with
    | some n => some n
    | none => ac.name)
  let genreOpt :=
    match c.tags with
    | [] => none
    | t :: ts =>
      some (ts.foldl (fun acc x => if x.count > acc.count then x else acc) t).tagName
  match c.releases with
  | [] =>
    { title := c.title
      artist := if artists.isEmpty then none else some (String.intercalate ", " artists)
      genre := genreOpt }
  | rel :: _ =>
    { title := c.title
      artist := if artists.isEmpty then none else some (String.intercalate ", " artists)
      genre := genreOpt
      album := rel.relTitle
      year := rel.date.bind (fun d => if d = "" then none else some (d.take 4))
      track := rel.trackNumber
      album_art_url :=
        match rel.relId with
        | some rid =>
          if rid = "" then none
          else
            match cover rid with
            | some u => if u = "" then none else some u
            | none => none
        | none => none }

/-- src/MusicDownloader.py line 131: `if best_match and best_score > 0.6`
— accept the loop's outcome only above the strict 0.6 threshold,
otherwise fall through to `return {}`. -/
def acceptBest (best : Option Candidate × ℚ) (cover : String → Option String) : Record :=
  match best.1 with
  | some bm => if best.2 > 3/5 then buildMeta bm cover else emptyRecord
  | none => emptyRecord

/-- src/MusicDownloader.py lines 91-185: `search_musicbrainz`.  A
transport error, a non-200 status, a malformed body, or an empty or
missing `recordings` list all yield `{}`; otherwise the best-scoring
candidate (first on ties) is accepted only above the 0.6 threshold. -/
def search_musicbrainz (sim : String → String → ℚ) (title : String)
    (artist : Option String) (r : HttpResult SearchPayload)
    (cover : String → Option String) : Record :=
  match r with
  | .transportErr => emptyRecord
  | .ok status body =>
    if status = 200 then
      match body with
      | none => emptyRecord
      | some p =>
        if p.recordings.isEmpty then emptyRecord
        else acceptBest (p.recordings.foldl (bestStep (scoreOf sim title artist))
          ((none : Option Candidate), (0 : ℚ))) cover
    else emptyRecord

/-- src/MusicDownloader.py lines 203-205: the image chosen from the
cover-art response: the first image flagged `front`, or the first image
when none is flagged; its `image` field may itself be absent. -/
def pickCoverImage (images : List CoverImage) : Option String :=
  if images.any (fun i => i.front) then (images.find? (fun i => i.front)).bind (fun i => i.image)
  else images.head?.bind (fun i => i.image)

/-- src/MusicDownloader.py lines 187-209: `get_cover_art_url`.  Any
transport error, non-200 status, malformed body, or empty image list
yields `none`. -/
def get_cover_art_url (r : HttpResult CoverPayload) : Option String :=
  match r with
  | .transportErr => none
  | .ok status body =>
    if status = 200 then
      match body with
      | none => none
      | some p => if p.images.isEmpty then none else pickCoverImage p.images
    else none

/-! ## Batch track processing (src/MusicDownloader.py lines 511-530) -/

/-- src/MusicDownloader.py lines 511-530: per-item metadata assembly in
`download_album`: merge the item's extracted record with the batch base
record (base wins), force `track = str(idx)`, replace a generic artist by
one parsed from the entry title when possible, then enrich (the
enrichment record `mb` is what the MusicBrainz lookup returns for this
item; it overwrites field by field per `enrich_metadata`). -/
def process_album_track (entryTitle : String) (ytm base : Record) (idx : Nat)
    (auto : Bool) (mb : Record) : Record :=
  let tm := mergeRecords ytm base
  let tm := { tm with track := some (toString idx) }
  let tm :=
    if tm.artist = some "Unknown Artist" || tm.artist = some "Various Artists"
        || tm.artist = none then
      let a := (extract_title_artist entryTitle).1
      if a ≠ "" && a ≠ "Unknown Artist" then { tm with artist := some a } else tm
    else tm
  enrich_metadata auto mb tm

/-- An HTTP outcome that the Python `try/except`/status-check path
treats as a failure: a transport error, a non-200 status, or a body that
did not parse. -/
def httpFailed {α : Type} : HttpResult α → Bool
  | .transportErr => true
  | .ok status body => status ≠ 200 || body.isNone

/-- Concrete similarity function used only by witnesses. -/
def simOne : String → String → ℚ := fun _ _ => 1

/-- Concrete cover-art oracle used only by witnesses. -/
def coverNone : String → Option String := fun _ => none

/-- Concrete candidate used only by the C4 witness. -/
def candOne : Candidate := { title := some "t" }

/-! ## Helper lemmas -/

theorem pickField_some (b : Option String) (v : String) : pickField b (some v) = some v := rfl

theorem pickField_none (b : Option String) : pickField b none = b := rfl

theorem mergeRecords_empty (r : Record) : mergeRecords r emptyRecord = r := rfl

theorem getF_merge (f : FieldName) (base top : Record) :
    getF f (mergeRecords base top) = pickField (getF f base) (getF f top) := by
  cases f <;> rfl

theorem filter_self_idem {α : Type} (p : α → Bool) (l : List α) :
    (l.filter p).filter p = l.filter p := by
  induction l with
  | nil => rfl
  | cons x xs ih =>
    by_cases h : p x
    · simp [List.filter_cons, h, ih]
    · simp [List.filter_cons, h, ih]

theorem all_filter_self {α : Type} (p : α → Bool) (l : List α) :
    (l.filter p).all p = true := by
  induction l with
  | nil => rfl
  | cons x xs ih =>
    by_cases h : p x
    · simp [List.filter_cons, h, ih]
    · simp [List.filter_cons, h, ih]

theorem tryHere_eq_none {c : Char} {l : List Char} (h : c ∉ l) : tryHere c l = none := by
  unfold tryHere
  cases hd : l.drop (wsRunLen l) with
  | nil => rfl
  | cons y rest =>
    have hy : y ∈ l := by
      have hmem : y ∈ l.drop (wsRunLen l) := by
        rw [hd]; exact List.mem_cons_self y rest
      exact List.mem_of_mem_drop hmem
    show (if y = c then postMatch rest else none) = none
    rw [if_neg]
    intro he
    exact h (he ▸ hy)

theorem reSplitSep_eq_none (c : Char) (l : List Char) (h : c ∉ l) :
    reSplitSep c l = none := by
  induction l with
  | nil => rfl
  | cons x xs ih =>
    simp only [reSplitSep, tryHere_eq_none h]
    by_cases hxn : x = '\n'
    · simp [hxn]
    · simp [hxn, ih (fun hm => h (List.mem_cons_of_mem _ hm))]

/-! ## Claim theorems -/

/-- Claim C10: the filename sanitizer is idempotent, and its output never
contains any of the stripped characters. -/
theorem c10_sanitize_idempotent (s : String) :
    sanitize_filename (sanitize_filename s) = sanitize_filename s
    ∧ (sanitize_filename s).data.all (fun c => !(invalidChars.contains c)) = true :=
  ⟨congrArg String.mk (filter_self_idem _ s.data), all_filter_self _ s.data⟩

/-- Claim C9: fusion is idempotent under empty upper layers: re-fusing an
already-fused record with an empty enrichment record and an empty
overrides record changes nothing.  `download_song_fuse auto s o e` is
the fusion of source `s`, overrides `o` and enrichment `e` performed by
`download_song`. -/
theorem c9_fuse_idempotent (auto : Bool) (s o e : Record) :
    download_song_fuse auto (download_song_fuse auto s o e) emptyRecord emptyRecord
      = download_song_fuse auto s o e := by
  show enrich_metadata auto emptyRecord
    (mergeRecords (download_song_fuse auto s o e) emptyRecord) = _
  rw [mergeRecords_empty]
  unfold enrich_metadata
  rw [mergeRecords_empty]
  split <;> rfl

/-- Claim C3 (code bug): for an album track with artist "X" and album
"Y" the code computes the folder name `sanitize_filename("X/Y")`, which
strips the path separator and yields the single segment "XY" instead of
the two-level "X/Y" the spec (and the adjacent source comment) require. -/
theorem c3_folder_strips_separator :
    download_song_folder { artist := some "X", album := some "Y" } = "XY"
    ∧ ("XY" : String) ≠ "X/Y" := by
  exact ⟨by decide, by decide⟩

/-- Claim C6 (counterexample): on "Artist ft. Someone - Song" the parser
does not return artist "Artist" — the separator rule keeps the whole
text before the dash as the artist. -/
theorem c6_counterexample :
    extract_title_artist "Artist ft. Someone - Song" ≠ ("Artist", "Song") := by decide

/-- Claim C6 (amended): on "Artist ft. Someone - Song" the separator
rule fires before the featuring rule and returns artist
"Artist ft. Someone" (the full text left of the dash) and title "Song". -/
theorem c6_amended_separator_first :
    extract_title_artist "Artist ft. Someone - Song" = ("Artist ft. Someone", "Song") := by decide

/-- Claim C7 (counterexample): "A-B" contains none of the three spaced
separators " - ", " – ", " : " and none of the featuring markers, yet
the parser does not return ("Unknown Artist", "A-B"): the regexes split
on a bare separator character regardless of surrounding spaces. -/
theorem c7_counterexample :
    containsSub " - ".data "A-B".data = false
    ∧ containsSub " – ".data "A-B".data = false
    ∧ containsSub " : ".data "A-B".data = false
    ∧ containsSub " feat".data (pyLower "A-B".data) = false
    ∧ containsSub " ft.".data (pyLower "A-B".data) = false
    ∧ containsSub " ft ".data (pyLower "A-B".data) = false
    ∧ extract_title_artist "A-B" ≠ ("Unknown Artist", "A-B") := by decide

/-- Claim C7 (amended): for every title containing none of the
characters "-", "–", ":" (in any spacing) and none of the featuring
markers " feat", " ft.", " ft " case-insensitively, the parser returns
("Unknown Artist", original title) unchanged. -/
theorem c7_amended_no_separator (t : String)
    (h1 : '-' ∉ t.data) (h2 : '–' ∉ t.data) (h3 : ':' ∉ t.data)
    (h4 : (containsSub " feat".data (pyLower t.data)
        || containsSub " ft.".data (pyLower t.data)
        || containsSub " ft ".data (pyLower t.data)) = false) :
    extract_title_artist t = ("Unknown Artist", t) := by
  unfold extract_title_artist
  rw [reSplitSep_eq_none '-' t.data h1, reSplitSep_eq_none '–' t.data h2,
    reSplitSep_eq_none ':' t.data h3]
  simp [h4]

/-- Witness for C7 (amended) at the concrete title "Hello". -/
theorem c7_amended_witness :
    extract_title_artist "Hello" = ("Unknown Artist", "Hello") :=
  c7_amended_no_separator "Hello" (by decide) (by decide) (by decide) (by decide)

/-- Claim C1 (counterexample): with source `{title: "t"}`, overrides
`{artist: "O"}` and an enrichment record `{artist: "E"}`, the fused
artist is the enrichment value, not the overrides value: the enrichment
loop in `enrich_metadata` overwrites the user-merged record. -/
theorem c1_counterexample :
    (download_song_fuse true { title := some "t" } { artist := some "O" }
      { artist := some "E" }).artist = some "E"
    ∧ (some "E" : Option String) ≠ some "O" := by decide

/-- Claim C1 (amended): the per-field precedence actually implemented is
enrichment > overrides > source (when the enrichment step runs, i.e. the
merged record has a truthy title): a field present in the enrichment
record wins; a field absent there but present in overrides wins over
source; a field absent in both falls back to source. -/
theorem c1_amended_precedence (s o e : Record) (f : FieldName) (v : String) :
    (titleTruthy (mergeRecords s o) = true → getF f e = some v →
      getF f (download_song_fuse true s o e) = some v)
    ∧ (getF f e = none → getF f o = some v →
      getF f (download_song_fuse true s o e) = some v)
    ∧ (getF f e = none → getF f o = none →
      getF f (download_song_fuse true s o e) = getF f s) := by
  unfold download_song_fuse enrich_metadata
  by_cases h : titleTruthy (mergeRecords s o)
  · refine ⟨fun _ he => ?_, fun he ho => ?_, fun he ho => ?_⟩
    · simp [h, getF_merge, he, pickField]
    · simp [h, getF_merge, he, ho, pickField]
    · simp [h, getF_merge, he, ho, pickField]
  · refine ⟨fun htr _ => absurd htr (by simp [h]), fun he ho => ?_, fun he ho => ?_⟩
    · simp [h, getF_merge, he, ho, pickField]
    · simp [h, getF_merge, he, ho, pickField]

/-- Witness for C1 (amended): at concrete records the enrichment value
wins over the overrides value. -/
theorem c1_amended_witness :
    getF FieldName.artist
      (download_song_fuse true { title := some "t" } { artist := some "O" }
        { artist := some "E" }) = some "E" :=
  (c1_amended_precedence { title := some "t" } { artist := some "O" }
    { artist := some "E" } FieldName.artist "E").1 (by decide) (by decide)

theorem enrich_metadata_track_none (auto : Bool) (mb r : Record)
    (h : mb.track = none) : (enrich_metadata auto mb r).track = r.track := by
  unfold enrich_metadata
  split
  · show pickField r.track mb.track = r.track
    rw [h, pickField_none]
  · rfl

/-- Claim C2 (counterexample): playlist item 3 whose extracted record is
`{title: "Song"}` and whose MusicBrainz enrichment supplies
`{track: "9"}` ends with track "9", not "3": the forced playlist index
is assigned before enrichment and the enrichment loop overwrites it. -/
theorem c2_counterexample :
    (process_album_track "T" { title := some "Song" } emptyRecord 3 true
      { track := some "9" }).track = some "9"
    ∧ (some "9" : Option String) ≠ some (toString 3) := by decide

/-- Claim C2 (amended): the record finally written for the item at
1-based playlist position `idx` has track `str(idx)` whenever the
enrichment record supplies no track field; an enrichment-supplied track
value overwrites the playlist position. -/
theorem c2_amended_track_position (entryTitle : String) (ytm base : Record)
    (idx : Nat) (auto : Bool) (mb : Record) (h : mb.track = none) :
    (process_album_track entryTitle ytm base idx auto mb).track
      = some (toString idx) := by
  simp only [process_album_track]
  rw [enrich_metadata_track_none auto mb _ h]
  split
  · split
    · rfl
    · rfl
  · rfl

/-- Witness for C2 (amended) at playlist position 3 with an enrichment
record carrying no track field. -/
theorem c2_amended_witness :
    (process_album_track "T" { title := some "Song" } emptyRecord 3 true
      emptyRecord).track = some (toString 3) :=
  c2_amended_track_position "T" { title := some "Song" } emptyRecord 3 true
    emptyRecord rfl

theorem stepTrack_artist (info : RawInfo) (m : Record) :
    (stepTrack info m).artist = m.artist := by
  unfold stepTrack
  cases info.track with
  | some t => rfl
  | none =>
    cases info.playlist_index with
    | some i => rfl
    | none => rfl

theorem stepYear_artist (info : RawInfo) (m : Record) :
    (stepYear info m).artist = m.artist := by
  unfold stepYear
  cases info.upload_date with
  | some d => rfl
  | none => rfl

theorem stepGenre_artist (info : RawInfo) (m : Record) :
    (stepGenre info m).artist = m.artist := by
  unfold stepGenre
  cases info.genre with
  | some gf =>
    cases gf with
    | ofList gs => cases gs with
      | nil => rfl
      | cons g t => rfl
    | ofStr g => rfl
  | none => rfl

theorem stepCategories_artist (info : RawInfo) (m : Record) :
    (stepCategories info m).artist = m.artist := by
  unfold stepCategories
  repeat' split <;> try rfl

theorem stepThumb_artist (info : RawInfo) (m : Record) :
    (stepThumb info m).artist = m.artist := by
  unfold stepThumb
  cases info.thumbnail with
  | some u => rfl
  | none =>
    cases info.thumbnails with
    | some ts => cases ts with
      | nil => rfl
      | cons t rest => rfl
    | none => rfl

/-- Claim C8 (counterexample): title "SomeSong" parses to
"Unknown Artist", the uploader "Bob" is installed as artist, and then
the non-empty channel "IndieChannel" — which does not contain "Topic" —
still replaces it: the channel test reuses the title-parsed artist, not
the record's current artist. -/
theorem c8_counterexample :
    (get_metadata_from_youtube
      { title := "SomeSong", uploader := some "Bob",
        channel := some "IndieChannel" }).artist = some "IndieChannel"
    ∧ (some "IndieChannel" : Option String) ≠ some "Bob" := by decide

/-- Claim C8 (amended): a present non-empty channel whose cleaned text is
non-empty replaces the artist whenever the title-parsed artist was
"Unknown Artist" (even if the uploader step already replaced it) or the
channel contains "Topic". -/
theorem c8_amended_channel_wins (info : RawInfo) (ch : String)
    (hch : info.channel = some ch) (hne : ch ≠ "")
    (hcond : (extract_title_artist info.title).1 = "Unknown Artist"
      ∨ containsSub "Topic".data ch.data = true)
    (hclean : cleanChannel ch ≠ "") :
    (get_metadata_from_youtube info).artist = some (cleanChannel ch) := by
  unfold get_metadata_from_youtube
  rw [stepThumb_artist, stepCategories_artist, stepGenre_artist, stepYear_artist,
    stepTrack_artist]
  unfold stepChannel
  rw [hch]
  show (if ch ≠ "" && ((extract_title_artist info.title).1 == "Unknown Artist"
      || containsSub "Topic".data ch.data) then
    if cleanChannel ch ≠ "" then
      { stepUploader info (extract_title_artist info.title).1
          (stepAlbum info { emptyRecord with
            title := some (extract_title_artist info.title).2,
            artist := some (extract_title_artist info.title).1 })
        with artist := some (cleanChannel ch) }
    else _ else _).artist = some (cleanChannel ch)
  have hb : (ch ≠ "" && ((extract_title_artist info.title).1 == "Unknown Artist"
      || containsSub "Topic".data ch.data)) = true := by
    rcases hcond with h | h <;> simp [hne, h]
  rw [if_pos hb, if_pos hclean]

/-- Witness for C8 (amended): the concrete counterexample record, where
the channel wins because the title parsed to "Unknown Artist". -/
theorem c8_amended_witness :
    (get_metadata_from_youtube
      { title := "SomeSong", uploader := some "Bob",
        channel := some "IndieChannel" }).artist
      = some (cleanChannel "IndieChannel") :=
  c8_amended_channel_wins
    { title := "SomeSong", uploader := some "Bob", channel := some "IndieChannel" }
    "IndieChannel" rfl (by decide) (Or.inl (by decide)) (by decide)

/-- Claim C5: on every transport, HTTP-status, or payload-parsing
failure, the metadata-search endpoint yields the empty record and the
cover-art endpoint yields no URL; the model is a total function, so no
exception propagates to the caller. -/
theorem c5_lookup_never_raises (sim : String → String → ℚ) (title : String)
    (artist : Option String) (cover : String → Option String)
    (r : HttpResult SearchPayload) (cr : HttpResult CoverPayload) :
    (httpFailed r = true → search_musicbrainz sim title artist r cover = emptyRecord)
    ∧ (httpFailed cr = true → get_cover_art_url cr = none) := by
  constructor
  · intro h
    cases r with
    | transportErr => rfl
    | ok st body =>
      unfold search_musicbrainz
      by_cases hst : st = 200
      · subst hst
        cases body with
        | none => simp
        | some p => simp [httpFailed] at h
      · simp [hst]
  · intro h
    cases cr with
    | transportErr => rfl
    | ok st body =>
      unfold get_cover_art_url
      by_cases hst : st = 200
      · subst hst
        cases body with
        | none => simp
        | some p => simp [httpFailed] at h
      · simp [hst]

/-- Witness for C5: a transport error at the search endpoint and a 500
status at the cover-art endpoint. -/
theorem c5_witness :
    search_musicbrainz simOne "t" none HttpResult.transportErr coverNone = emptyRecord
    ∧ get_cover_art_url (HttpResult.ok 500 (some ⟨[]⟩)) = none :=
  ⟨(c5_lookup_never_raises simOne "t" none coverNone HttpResult.transportErr
      (HttpResult.ok 500 (some ⟨[]⟩))).1 rfl,
   (c5_lookup_never_raises simOne "t" none coverNone HttpResult.transportErr
      (HttpResult.ok 500 (some ⟨[]⟩))).2 (by decide)⟩

theorem foldl_bestStep_const (f : Candidate → ℚ) (l : List Candidate) :
    ∀ (acc : Option Candidate × ℚ), (∀ x ∈ l, f x ≤ acc.2) →
      l.foldl (bestStep f) acc = acc := by
  induction l with
  | nil => intro acc _; rfl
  | cons c t ih =>
    intro acc h
    have hc : f c ≤ acc.2 := h c (List.mem_cons_self c t)
    have hstep : bestStep f acc c = acc := by
      unfold bestStep; rw [if_neg (not_lt.mpr hc)]
    rw [List.foldl_cons, hstep]
    exact ih acc (fun x hx => h x (List.mem_cons_of_mem _ hx))

theorem foldl_bestStep_firstMax (f : Candidate → ℚ) (l : List Candidate) :
    ∀ (acc : Option Candidate × ℚ) (i : Nat) (hi : i < l.length),
      acc.2 < f (l.get ⟨i, hi⟩) →
      (∀ (j : Nat) (hj : j < l.length), f (l.get ⟨j, hj⟩) ≤ f (l.get ⟨i, hi⟩)) →
      (∀ (j : Nat) (hj : j < l.length), j < i → f (l.get ⟨j, hj⟩) < f (l.get ⟨i, hi⟩)) →
      l.foldl (bestStep f) acc = (some (l.get ⟨i, hi⟩), f (l.get ⟨i, hi⟩)) := by
  induction l with
  | nil => intro acc i hi; exact absurd hi (Nat.not_lt_zero i)
  | cons c t ih =>
    intro acc i hi hlt hmax hfirst
    cases i with
    | zero =>
      have hlt' : f c > acc.2 := hlt
      have hstep : bestStep f acc c = (some c, f c) := by
        unfold bestStep; rw [if_pos hlt']
      rw [List.foldl_cons, hstep]
      apply foldl_bestStep_const
      intro x hx
      obtain ⟨⟨j, hj⟩, rfl⟩ := List.mem_iff_get.mp hx
      exact hmax (j + 1) (Nat.succ_lt_succ hj)
    | succ n =>
      have hn : n < t.length := Nat.lt_of_succ_lt_succ hi
      have hc : f c < f (t.get ⟨n, hn⟩) :=
        hfirst 0 (Nat.zero_lt_succ _) (Nat.succ_pos n)
      have hacc2 : (bestStep f acc c).2 < f (t.get ⟨n, hn⟩) := by
        unfold bestStep
        split
        · exact hc
        · exact hlt
      rw [List.foldl_cons]
      exact ih (bestStep f acc c) n hn hacc2
        (fun j hj => hmax (j + 1) (Nat.succ_lt_succ hj))
        (fun j hj hji => hfirst (j + 1) (Nat.succ_lt_succ hj) (Nat.succ_lt_succ hji))

theorem foldl_bestStep_le (f : Candidate → ℚ) (q : ℚ) (l : List Candidate) :
    ∀ (acc : Option Candidate × ℚ), acc.2 ≤ q → (∀ x ∈ l, f x ≤ q) →
      (l.foldl (bestStep f) acc).2 ≤ q := by
  induction l with
  | nil => intro acc hacc _; exact hacc
  | cons c t ih =>
    intro acc hacc h
    rw [List.foldl_cons]
    have hstep : (bestStep f acc c).2 ≤ q := by
      unfold bestStep
      split
      · exact h c (List.mem_cons_self c t)
      · exact hacc
    exact ih (bestStep f acc c) hstep (fun x hx => h x (List.mem_cons_of_mem _ hx))

theorem acceptBest_low (best : Option Candidate × ℚ) (cover : String → Option String)
    (h : best.2 ≤ 3/5) : acceptBest best cover = emptyRecord := by
  unfold acceptBest
  split
  · rw [if_neg (not_lt.mpr h)]
  · rfl

theorem acceptBest_high (bm : Candidate) (q : ℚ) (cover : String → Option String)
    (h : 3/5 < q) : acceptBest (some bm, q) cover = buildMeta bm cover := by
  have h' : (some bm, q).2 > 3/5 := h
  show (if (some bm, q).2 > 3/5 then buildMeta bm cover else emptyRecord) = _
  rw [if_pos h']

theorem search_step_200 (sim : String → String → ℚ) (qt : String) (qa : Option String)
    (cover : String → Option String) (cs : List Candidate) (hne : cs.isEmpty = false) :
    search_musicbrainz sim qt qa (HttpResult.ok 200 (some ⟨cs⟩)) cover
      = acceptBest (cs.foldl (bestStep (scoreOf sim qt qa))
          ((none : Option Candidate), (0 : ℚ))) cover := by
  show (if cs.isEmpty = true then emptyRecord
    else acceptBest (cs.foldl (bestStep (scoreOf sim qt qa))
      ((none : Option Candidate), (0 : ℚ))) cover) = _
  rw [hne]
  exact if_neg Bool.false_ne_true

/-- Claim C4: on a 200 response whose recordings list is `cs`, (a) if
the candidate at position `i` scores strictly above 0.6, at least as
high as every candidate, and strictly higher than every earlier one
(i.e. it is the first candidate attaining the strictly highest weighted
score `0.6 * title_score + 0.4 * artist_score`), then the client returns
the record populated from it; (b) if every candidate scores at most 0.6,
the client returns the empty record (the strict threshold rejects a best
score of exactly 0.6). -/
theorem c4_best_match_selection (sim : String → String → ℚ) (qt : String)
    (qa : Option String) (cover : String → Option String) (cs : List Candidate) :
    (∀ (i : Nat) (hi : i < cs.length),
        3/5 < scoreOf sim qt qa (cs.get ⟨i, hi⟩) →
        (∀ (j : Nat) (hj : j < cs.length),
          scoreOf sim qt qa (cs.get ⟨j, hj⟩) ≤ scoreOf sim qt qa (cs.get ⟨i, hi⟩)) →
        (∀ (j : Nat) (hj : j < cs.length), j < i →
          scoreOf sim qt qa (cs.get ⟨j, hj⟩) < scoreOf sim qt qa (cs.get ⟨i, hi⟩)) →
        search_musicbrainz sim qt qa (HttpResult.ok 200 (some ⟨cs⟩)) cover
          = buildMeta (cs.get ⟨i, hi⟩) cover)
    ∧ ((∀ x ∈ cs, scoreOf sim qt qa x ≤ 3/5) →
        search_musicbrainz sim qt qa (HttpResult.ok 200 (some ⟨cs⟩)) cover
          = emptyRecord) := by
  constructor
  · intro i hi hthr hmax hfirst
    have hne : cs.isEmpty = false := by
      cases cs with
      | nil => exact absurd hi (Nat.not_lt_zero i)
      | cons c t => rfl
    have hfold := foldl_bestStep_firstMax (scoreOf sim qt qa) cs
      ((none : Option Candidate), (0 : ℚ)) i hi
      (lt_trans (by norm_num) hthr) hmax hfirst
    rw [search_step_200 sim qt qa cover cs hne, hfold]
    exact acceptBest_high _ _ cover hthr
  · intro hall
    cases cs with
    | nil => simp [search_musicbrainz]
    | cons c t =>
      have hb := foldl_bestStep_le (scoreOf sim qt qa) (3/5) (c :: t)
        ((none : Option Candidate), (0 : ℚ)) (by norm_num) hall
      rw [search_step_200 sim qt qa cover (c :: t) rfl]
      exact acceptBest_low _ cover hb

/-- Witness for C4: with the constant similarity 1 and no query artist,
the single candidate scores 1 * 0.6 + 0.5 * 0.4 = 0.8 > 0.6 and is
returned populated. -/
theorem c4_witness :
    search_musicbrainz simOne "t" none (HttpResult.ok 200 (some ⟨[candOne]⟩)) coverNone
      = buildMeta candOne coverNone := by
  refine (c4_best_match_selection simOne "t" none coverNone [candOne]).1 0
    (by decide) ?_ ?_ ?_
  · show (3 : ℚ)/5 < scoreOf simOne "t" none candOne
    norm_num [scoreOf, simOne]
  · intro j hj
    have hj0 : j = 0 := Nat.lt_one_iff.mp hj
    subst hj0
    exact le_refl _
  · intro j hj hj0
    exact absurd hj0 (Nat.not_lt_zero j)
